import Mathlib

/-!
Verification of the panjek26/monorepo health-check / instrumentation core.

This file shallowly embeds the two HTTP services of the repository:
  - src/go-services/main.go (the Go service), and
  - src/node-services/index.js (the Node service),
restricted to the parts the specification's claims are about: the health
aggregator, the product-listing route, the request-counting middleware,
route registration, probe timeout configuration, and startup behaviour.

Modelling conventions:
  - Probe outcomes and query outcomes are inputs of the embedding
    ("Option String" is the error returned by a ping, "none" meaning
    success; an "Except" is a fallible query).
  - Response bodies are modelled at the level the code produces them:
    "Body.text s" is a raw text body with exactly the bytes of s;
    "Body.json v" is the compact JSON serialization of the value v
    (Node's res.json); "Body.jsonLn v" is the serialization of v followed
    by the trailing newline that Go's json.Encoder.Encode appends.
    JSON object fields are listed in their serialized order (Go's
    json.Marshal sorts map keys, and "database" < "redis").
  - Metric updates are modelled as a list of emitted events rather than
    as mutable counters: one "MetricEvent.count path method" event per
    increment of the http_requests_total counter.
-/

namespace Monorepo

/-- A JSON value, as far as the services' response bodies need. -/
inductive Json where
  | null
  | str (s : String)
  | arr (elems : List Json)
  | obj (fields : List (String × Json))

/-- Whether a JSON value is an array all of whose elements are strings. -/
def Json.isStrArray : Json → Bool
  | .arr elems => elems.all fun j => match j with | .str _ => true | _ => false
  | _ => false

/-- A response body: raw text bytes, a JSON document (Node's res.json),
or a JSON document followed by a newline (Go's json.Encoder.Encode). -/
inductive Body where
  | text (s : String)
  | json (v : Json)
  | jsonLn (v : Json)

/-- An HTTP response as produced by a handler: status code, the headers the
handler sets explicitly, and the body. -/
structure Response where
  code : Nat
  headers : List (String × String)
  body : Body

/-- An inbound HTTP request. -/
structure Request where
  method : String
  path : String
  headers : List (String × String)
  body : String

/-- One observable metric update: an increment of the request counter
labelled (path, method), or a latency observation labelled by path. -/
inductive MetricEvent where
  | count (path method : String)
  | duration (path : String)
deriving DecidableEq

/-- The outcome of running a handler: the metric events it emitted, and
either a response or a propagated error (a Go panic / a thrown JS error). -/
abbrev HResult := List MetricEvent × Except String Response

/-- A modelled HTTP handler. -/
abbrev HandlerFn := Request → HResult

/-- Number of request-counter increments with the given labels among a
list of emitted metric events. -/
def countEventsFor (evs : List MetricEvent) (path method : String) : Nat :=
  (evs.filter fun e => e = MetricEvent.count path method).length

/-! ## The Go service's health handler (src/go-services/main.go, healthHandler) -/

/-- Outcomes of the dependency round-trips available to the Go service:
the error (if any) of db.Ping(), of rdb.Ping(ctx), and the outcome of the
products query, where each fetched row either scans to a name or fails
to scan with an error. -/
structure GoEnv where
  dbPingErr : Option String
  redisPingErr : Option String
  productsQuery : Except String (List (Except String String))

/-- Embeds healthHandler (src/go-services/main.go lines 134-160): the
status map starts as database:"ok", redis:"ok" with code 200; a db ping
error sets the database field to "unreachable" and the code to 503; a
redis ping error sets the redis field to "unreachable" and the code to
503. The map is then JSON-encoded (keys serialized in sorted order,
"database" before "redis") with Encoder.Encode, which appends a newline. -/
def goHealthResponse (dbErr redisErr : Option String) : Response :=
  let database := "ok"
  let redis := "ok"
  let code := 200
  let (database, code) :=
    match dbErr with
    | some _ => ("unreachable", 503)
    | none => (database, code)
  let (redis, code) :=
    match redisErr with
    | some _ => ("unreachable", 503)
    | none => (redis, code)
  { code := code
    headers := []
    body := .jsonLn (Json.obj [("database", Json.str database), ("redis", Json.str redis)]) }

/-- healthHandler as a handler: it never reads the request and emits no
metric events itself (instrumentation is added by withMetrics). -/
def goHealthHandler (env : GoEnv) : HandlerFn := fun _r =>
  ([], .ok (goHealthResponse env.dbPingErr env.redisPingErr))

/-! ## The Node service's health handler (src/node-services/index.js, app.get of /healthz) -/

/-- Outcomes of the Node service's dependency round-trips: the error (if
any) of db.query of SELECT 1, of redisClient.ping(), and the outcome of
the products query (each row yields a name string; there is no per-row
scan failure in the Node code). -/
structure NodeEnv where
  dbQueryErr : Option String
  redisPingErr : Option String
  productsQuery : Except String (List String)

/-- Embeds the /healthz handler (src/node-services/index.js lines 82-104):
dbStatus and redisStatus start as "ok" with code 200; a failed
db.query sets dbStatus to "unreachable" and code to 503; a failed
redisClient.ping sets redisStatus to "unreachable" and code to 503;
the response is res.status(code).json of the object with the database
field first, then the redis field. -/
def nodeHealthResponse (dbErr redisErr : Option String) : Response :=
  let dbStatus := "ok"
  let redisStatus := "ok"
  let code := 200
  let (dbStatus, code) :=
    match dbErr with
    | some _ => ("unreachable", 503)
    | none => (dbStatus, code)
  let (redisStatus, code) :=
    match redisErr with
    | some _ => ("unreachable", 503)
    | none => (redisStatus, code)
  { code := code
    headers := [("Content-Type", "application/json; charset=utf-8")]
    body := .json (Json.obj [("database", Json.str dbStatus), ("redis", Json.str redisStatus)]) }

/-- The /healthz route handler of the Node service: the request parameter
is unused in the source (bound as the wildcard), and the handler emits no
metric events itself (counting happens in the app-level middleware). -/
def nodeHealthHandler (env : NodeEnv) : HandlerFn := fun _r =>
  ([], .ok (nodeHealthResponse env.dbQueryErr env.redisPingErr))

/-! ## Further handlers and route registration -/

/-- Embeds rootHandler (main.go lines 126-132). -/
def rootHandler : HandlerFn := fun _r =>
  ([], .ok { code := 200, headers := [], body := .text "Welcome to the Go service!" })

/-- Embeds loginHandler (main.go lines 162-167): Write with no explicit
WriteHeader means an implicit 200. -/
def loginHandler : HandlerFn := fun _r =>
  ([], .ok { code := 200, headers := [], body := .text "Logged in" })

/-- Embeds Go's http.Error helper as used at main.go line 173: it sets
Content-Type and X-Content-Type-Options headers, writes the status code,
and writes the message with Fprintln — which appends a newline. -/
def httpError (msg : String) (code : Nat) : Response :=
  { code := code
    headers := [("Content-Type", "text/plain; charset=utf-8"),
                ("X-Content-Type-Options", "nosniff")]
    body := .text (msg ++ "\n") }

/-- The scan loop of productsHandler (main.go lines 178-186): products
starts as a nil slice; each row that scans successfully is appended; a row
whose scan fails is logged and skipped with continue. -/
def goScanRows (rows : List (Except String String)) : List String :=
  rows.filterMap fun row =>
    match row with
    | .ok name => some name
    | .error _ => none

/-- Go's json encoding of the products slice (main.go line 188): the
variable products is a nil slice of strings when nothing was appended, and
encoding a nil slice yields the JSON literal null; a non-empty slice
encodes as a JSON array of its strings. -/
def goEncodeStringSlice (products : List String) : Json :=
  match products with
  | [] => Json.null
  | _ => Json.arr (products.map Json.str)

/-- Embeds productsHandler (main.go lines 169-191): a failed query yields
http.Error with "DB error" and status 500; otherwise the scanned names are
JSON-encoded (Encoder.Encode, trailing newline, implicit status 200). -/
def goProductsResponse (query : Except String (List (Except String String))) : Response :=
  match query with
  | .error _ => httpError "DB error" 500
  | .ok rows =>
      let products := goScanRows rows
      { code := 200, headers := [], body := .jsonLn (goEncodeStringSlice products) }

/-- productsHandler as a handler: it does not read the request. -/
def goProductsHandler (env : GoEnv) : HandlerFn := fun _r =>
  ([], .ok (goProductsResponse env.productsQuery))

/-- Embeds withMetrics (main.go lines 193-202): it runs the wrapped
handler, then increments http_requests_total labelled (request path,
method) and observes the duration labelled by path. The increments run
after the handler returns, so a propagated panic skips them; the response
produced by the wrapped handler is passed through untouched. -/
def withMetrics (handler : HandlerFn) : HandlerFn := fun r =>
  match handler r with
  | (evs, .ok resp) =>
      (evs ++ [MetricEvent.count r.path r.method, MetricEvent.duration r.path], .ok resp)
  | (evs, .error e) => (evs, .error e)

/-- The Prometheus exposition handler registered at /metrics (main.go line
57). It is library code external to this repository, modelled only to the
extent the claims need: it serves the current exposition text with status
200 and performs no increment of the http_requests_total counter — and it
is registered without the withMetrics wrapper. -/
def promhttpHandler : HandlerFn := fun _r =>
  ([], .ok { code := 200
             headers := [("Content-Type", "text/plain; version=0.0.4; charset=utf-8")]
             body := .text "" })

/-- The paths registered by the Go service's main (main.go lines 53-57). -/
def goRegisteredPaths : List String := ["/", "/healthz", "/login", "/products", "/metrics"]

/-- Route dispatch of the Go service (main.go lines 53-57 under net/http's
ServeMux): the patterns /healthz, /login, /products, /metrics match
exactly; the pattern / is the fallback matching every other path. All
handlers except the /metrics one are wrapped in withMetrics. -/
def goServe (env : GoEnv) : HandlerFn := fun r =>
  if r.path = "/healthz" then withMetrics (goHealthHandler env) r
  else if r.path = "/login" then withMetrics loginHandler r
  else if r.path = "/products" then withMetrics (goProductsHandler env) r
  else if r.path = "/metrics" then promhttpHandler r
  else withMetrics rootHandler r

/-- Embeds the Node /login handler (index.js lines 107-110). -/
def nodeLoginHandler : HandlerFn := fun _r =>
  ([], .ok { code := 200
             headers := [("Content-Type", "text/html; charset=utf-8")]
             body := .text "Logged in" })

/-- Embeds the Node /products handler (index.js lines 113-122): on success
the row names are sent with res.json (always a JSON array, possibly
empty); on a query error the response is status 500 with res.send of the
literal "DB error" (no newline appended). -/
def nodeProductsResponse (query : Except String (List String)) : Response :=
  match query with
  | .ok names =>
      { code := 200
        headers := [("Content-Type", "application/json; charset=utf-8")]
        body := .json (Json.arr (names.map Json.str)) }
  | .error _ =>
      { code := 500
        headers := [("Content-Type", "text/html; charset=utf-8")]
        body := .text "DB error" }

/-- The Node /products route handler. -/
def nodeProductsHandler (env : NodeEnv) : HandlerFn := fun _r =>
  ([], .ok (nodeProductsResponse env.productsQuery))

/-- The Node /metrics handler (index.js lines 125-128): serves the
exporter's current metrics; external library content, modelled only as a
handler that emits no counter increment itself. -/
def nodeMetricsHandler : HandlerFn := fun _r =>
  ([], .ok { code := 200, headers := [("Content-Type", "application/json")], body := .text "" })

/-- Express's default handler for an unmatched route: status 404. -/
def nodeNotFoundHandler : HandlerFn := fun r =>
  ([], .ok { code := 404
             headers := [("Content-Type", "text/html; charset=utf-8")]
             body := .text ("Cannot " ++ r.method ++ " " ++ r.path) })

/-- Route dispatch of the Node service: the four app.get routes match GET
requests on their exact paths; anything else falls through to Express's
404 handler. -/
def nodeDispatch (env : NodeEnv) : HandlerFn := fun r =>
  if r.method = "GET" ∧ r.path = "/healthz" then nodeHealthHandler env r
  else if r.method = "GET" ∧ r.path = "/login" then nodeLoginHandler r
  else if r.method = "GET" ∧ r.path = "/products" then nodeProductsHandler env r
  else if r.method = "GET" ∧ r.path = "/metrics" then nodeMetricsHandler r
  else nodeNotFoundHandler r

/-- Embeds the Node request-counting middleware (index.js lines 40-43):
app.use runs it on every inbound request before route dispatch; it adds 1
to http_requests_total labelled (route = request path, method) and calls
next(). It runs before the handler, so the count is emitted even when the
handler later fails; the handler's result is passed through untouched. -/
def nodeCountMiddleware (handler : HandlerFn) : HandlerFn := fun r =>
  (MetricEvent.count r.path r.method :: (handler r).1, (handler r).2)

/-- The Node service as served: counting middleware around route dispatch. -/
def nodeServe (env : NodeEnv) : HandlerFn := fun r =>
  nodeCountMiddleware (nodeDispatch env) r

/-! ## Timeout configuration of the probes (claim C3) -/

/-- A Go context.Context, modelled by the deadline it carries (in
milliseconds), if any. -/
structure GoContext where
  timeoutMs : Option Nat
deriving DecidableEq

/-- context.Background(): no deadline. -/
def contextBackground : GoContext := { timeoutMs := none }

/-- context.WithTimeout(parent, ms): the child's deadline is ms, tightened
by the parent's deadline when the parent has one. -/
def contextWithTimeout (parent : GoContext) (ms : Nat) : GoContext :=
  { timeoutMs := some (match parent.timeoutMs with
      | none => ms
      | some p => min p ms) }

/-- The probe invocations performed by one run of the Go healthHandler
(main.go lines 135-136), each with the context it runs under: db.Ping()
runs under context.Background() (Go's DB.Ping delegates to PingContext
with the background context), and rdb.Ping(ctx) runs under the
package-level ctx, which is context.Background() (main.go line 26).
Neither carries a deadline. -/
def healthHandlerProbeContexts : List (String × GoContext) :=
  [("database", contextBackground), ("redis", contextBackground)]

/-- The context of the one Redis ping performed at startup by initRedis
(main.go lines 117-120): context.WithTimeout(ctx, 2*time.Second). -/
def initRedisProbeContext : GoContext := contextWithTimeout contextBackground 2000

/-- The Node health handler's probe invocations (index.js lines 87-99):
db.query of SELECT 1 and redisClient.ping(), each paired with the timeout
configured on the call — neither call configures one. -/
def nodeHealthProbeTimeouts : List (String × Option Nat) :=
  [("database", none), ("redis", none)]

/-! ## Startup behaviour (claim C7) -/

/-- What the process does after its boot sequence: exit via log.Fatalf
without serving, or go on to serve traffic. -/
inductive StartupOutcome where
  | fatalExit
  | serving
deriving DecidableEq

/-- Embeds the Go service's boot sequence (main.go lines 46-51, initDB
lines 86-106, initRedis lines 108-124): an error from sql.Open, from
db.Ping, or from the startup Redis ping is passed to log.Fatalf, which
exits the process before any route is registered — no traffic is served. -/
def goStartup (dbOpenErr dbPingErr redisPingErr : Option String) : StartupOutcome :=
  match dbOpenErr with
  | some _ => .fatalExit
  | none =>
    match dbPingErr with
    | some _ => .fatalExit
    | none =>
      match redisPingErr with
      | some _ => .fatalExit
      | none => .serving

/-- Embeds the Node service's boot sequence (index.js lines 72-79 and
131-134): the async IIFE awaits redisClient.connect() and catches any
error, only logging it; app.listen runs unconditionally, so the process
serves traffic whether or not the initial Redis connection succeeded, and
no initial database connection is attempted at boot (the pg Pool connects
lazily on first query). Returns the logged startup message (the source
logs a structured JSON record; only its text matters here) and the
outcome. -/
def nodeStartup (redisConnectErr : Option String) : List String × StartupOutcome :=
  match redisConnectErr with
  | some e => (["startup error: " ++ e], .serving)
  | none => (["startup: Connected to Redis"], .serving)

/-! ## Concrete inputs used by counterexamples and witnesses -/

/-- A Go environment with both probes healthy and an empty products table. -/
def goEnvDemo : GoEnv :=
  { dbPingErr := none, redisPingErr := none, productsQuery := .ok [] }

/-- A Node environment with both probes healthy and an empty products table. -/
def nodeEnvDemo : NodeEnv :=
  { dbQueryErr := none, redisPingErr := none, productsQuery := .ok [] }

/-- A GET request to /metrics. -/
def metricsRequest : Request := { method := "GET", path := "/metrics", headers := [], body := "" }

/-- A GET request to /healthz. -/
def healthzRequest : Request := { method := "GET", path := "/healthz", headers := [], body := "" }

/-! ## Helper lemmas -/

lemma countEventsFor_pair (p m : String) :
    countEventsFor [MetricEvent.count p m, MetricEvent.duration p] p m = 1 := by
  simp [countEventsFor]

lemma withMetrics_ok_events (h : HandlerFn) (r : Request) (resp : Response)
    (hh : h r = ([], .ok resp)) :
    ((withMetrics h) r).1 = [MetricEvent.count r.path r.method, MetricEvent.duration r.path] := by
  unfold withMetrics
  rw [hh]
  rfl

lemma nodeDispatch_no_events (env : NodeEnv) (r : Request) :
    (nodeDispatch env r).1 = [] := by
  unfold nodeDispatch
  repeat' split
  all_goals rfl

lemma isStrArray_map_str (names : List String) :
    (Json.arr (names.map Json.str)).isStrArray = true := by
  simp [Json.isStrArray]

/-! ## Claims C1, C2, C9: the health aggregator -/

/-- C1: For every pair of probe outcomes (database, redis), the health
aggregator's overall HTTP status code is 200 if and only if both probes
succeeded, and 503 otherwise — in both the Go and the Node service. -/
theorem health_overall_code_200_iff (dbErr redisErr : Option String) :
    ((goHealthResponse dbErr redisErr).code = 200 ↔ (dbErr = none ∧ redisErr = none)) ∧
    ((goHealthResponse dbErr redisErr).code = 200 ∨ (goHealthResponse dbErr redisErr).code = 503) ∧
    ((nodeHealthResponse dbErr redisErr).code = 200 ↔ (dbErr = none ∧ redisErr = none)) ∧
    ((nodeHealthResponse dbErr redisErr).code = 200 ∨ (nodeHealthResponse dbErr redisErr).code = 503) := by
  cases dbErr <;> cases redisErr <;> simp [goHealthResponse, nodeHealthResponse]

/-- C2: For every pair of probe outcomes, each field of the health body is
exactly "ok" when its own probe succeeded and exactly "unreachable" when it
failed, each field depending only on its own probe's outcome and never on
the error text (the error payloads dbErr, redisErr do not occur in the
body); in particular with both probes healthy the body is exactly the JSON
document with database:"ok" and redis:"ok" (serialized with a trailing
newline by the Go encoder, and without one by Node's res.json). -/
theorem health_body_fields_literal (dbErr redisErr : Option String) :
    (goHealthResponse dbErr redisErr).body =
      .jsonLn (Json.obj [("database", Json.str (if dbErr.isNone then "ok" else "unreachable")),
                         ("redis", Json.str (if redisErr.isNone then "ok" else "unreachable"))]) ∧
    (nodeHealthResponse dbErr redisErr).body =
      .json (Json.obj [("database", Json.str (if dbErr.isNone then "ok" else "unreachable")),
                       ("redis", Json.str (if redisErr.isNone then "ok" else "unreachable"))]) ∧
    (goHealthResponse none none).body =
      .jsonLn (Json.obj [("database", Json.str "ok"), ("redis", Json.str "ok")]) ∧
    (nodeHealthResponse none none).body =
      .json (Json.obj [("database", Json.str "ok"), ("redis", Json.str "ok")]) := by
  cases dbErr <;> cases redisErr <;> exact ⟨rfl, rfl, rfl, rfl⟩

/-- C9: The health handler's response is a deterministic function of the
probe outcomes alone: for any two requests (any methods, paths, headers,
bodies) under the same probe outcomes, both services' health handlers
produce identical results, since neither reads the incoming request. -/
theorem health_handler_request_oblivious (genv : GoEnv) (nenv : NodeEnv) (r₁ r₂ : Request) :
    goHealthHandler genv r₁ = goHealthHandler genv r₂ ∧
    nodeHealthHandler nenv r₁ = nodeHealthHandler nenv r₂ :=
  ⟨rfl, rfl⟩

/-! ## Claim C5: middleware transparency -/

/-- C5: For every request and every wrapped handler, the instrumentation
middleware (Go's withMetrics and the Node counting middleware) leaves the
wrapped handler's outcome — response body, headers, status code, or a
propagated error — exactly as produced: the second component of the
handler outcome (response or error) is unchanged by wrapping. -/
theorem middleware_transparent (h : HandlerFn) (r : Request) :
    ((withMetrics h) r).2 = (h r).2 ∧ ((nodeCountMiddleware h) r).2 = (h r).2 := by
  refine ⟨?_, rfl⟩
  unfold withMetrics
  rcases h r with ⟨evs, result⟩
  cases result <;> rfl

/-! ## Claim C4: request counting -/

/-- C4 counterexample: the claim fails at the Go service's /metrics route.
/metrics is a registered path, but main registers it without the
withMetrics wrapper (main.go line 57), so a completed GET /metrics request
emits zero increments of the request counter, not one. -/
theorem metrics_route_request_not_counted :
    "/metrics" ∈ goRegisteredPaths ∧
    countEventsFor (goServe goEnvDemo metricsRequest).1 "/metrics" "GET" = 0 := by
  exact ⟨by decide, rfl⟩

/-- C4 amended: every completed request increments the process-wide
request counter labelled (request path, method) by exactly 1, regardless
of outcome — in the Node service for every request whatsoever (including
/metrics and unmatched routes, since the middleware runs before
dispatch), and in the Go service for every request except those to
/metrics, whose handler is registered without the instrumentation wrapper
and is not counted. -/
theorem request_counted_once_outside_metrics (genv : GoEnv) (nenv : NodeEnv) (r : Request)
    (hm : r.path ≠ "/metrics") :
    countEventsFor (goServe genv r).1 r.path r.method = 1 ∧
    (∀ r' : Request, countEventsFor (nodeServe nenv r').1 r'.path r'.method = 1) := by
  constructor
  · unfold goServe
    by_cases h1 : r.path = "/healthz"
    · rw [if_pos h1, withMetrics_ok_events (goHealthHandler genv) r _ rfl]
      exact countEventsFor_pair _ _
    rw [if_neg h1]
    by_cases h2 : r.path = "/login"
    · rw [if_pos h2, withMetrics_ok_events loginHandler r _ rfl]
      exact countEventsFor_pair _ _
    rw [if_neg h2]
    by_cases h3 : r.path = "/products"
    · rw [if_pos h3, withMetrics_ok_events (goProductsHandler genv) r _ rfl]
      exact countEventsFor_pair _ _
    rw [if_neg h3, if_neg hm, withMetrics_ok_events rootHandler r _ rfl]
    exact countEventsFor_pair _ _
  · intro r'
    unfold nodeServe nodeCountMiddleware
    rw [nodeDispatch_no_events]
    simp [countEventsFor]

/-- Witness for the C4 amended theorem at a concrete input: a GET request
to /healthz is counted exactly once by the Go service, and the Node
service counts every request exactly once — in particular the concrete
GET /metrics request. -/
theorem request_counted_once_outside_metrics_witness :
    healthzRequest.path ≠ "/metrics" ∧
    (countEventsFor (goServe goEnvDemo healthzRequest).1 healthzRequest.path healthzRequest.method = 1 ∧
     (∀ r' : Request, countEventsFor (nodeServe nodeEnvDemo r').1 r'.path r'.method = 1)) ∧
    countEventsFor (nodeServe nodeEnvDemo metricsRequest).1 metricsRequest.path metricsRequest.method = 1 :=
  have h := request_counted_once_outside_metrics goEnvDemo nodeEnvDemo healthzRequest (by decide)
  ⟨by decide, h, h.2 metricsRequest⟩

/-! ## Claim C6: the product-listing failure response -/

/-- C6 counterexample: in the Go service a failed products query responds
with status 500, but the body is not exactly the literal "DB error":
http.Error writes the message with Fprintln, which appends a newline. -/
theorem go_db_error_body_has_newline :
    (goProductsResponse (.error "connection refused")).code = 500 ∧
    (goProductsResponse (.error "connection refused")).body = .text ("DB error" ++ "\n") ∧
    "DB error" ++ "\n" ≠ "DB error" :=
  ⟨rfl, rfl, by decide⟩

/-- C6 amended: whenever the database query on the product-listing route
fails, the response status is exactly 500 and the body is the fixed
literal "DB error" — followed by a trailing newline in the Go service
(added by the http.Error helper), and with no newline in the Node service
— independent of the error's text, and it is a plain-text body, never
partial or malformed JSON. -/
theorem products_query_failure_fixed_error (e : String) :
    (goProductsResponse (.error e)).code = 500 ∧
    (goProductsResponse (.error e)).body = .text ("DB error" ++ "\n") ∧
    (nodeProductsResponse (.error e)).code = 500 ∧
    (nodeProductsResponse (.error e)).body = .text "DB error" :=
  ⟨rfl, rfl, rfl, rfl⟩

/-! ## Claims C8, C10: the product-listing success responses -/

/-- C8 counterexample: in the Go service a successful query returning zero
rows does not produce a JSON array: the products variable is still a nil
slice, and Go encodes a nil string slice as the JSON literal null. -/
theorem go_products_zero_rows_null_body :
    (goProductsResponse (.ok [])).code = 200 ∧
    (goProductsResponse (.ok [])).body = .jsonLn Json.null ∧
    Json.isStrArray Json.null = false :=
  ⟨rfl, rfl, rfl⟩

/-- C8 amended: for every successful products query the Node service's
body is always a JSON array of the name strings (the empty array for zero
rows); the Go service's body is the JSON array of the scanned names
whenever at least one row was scanned, but is the JSON literal null when
zero rows were scanned, because the nil slice encodes as null. -/
theorem products_success_body_array (rows : List (Except String String)) (names : List String)
    (h : goScanRows rows ≠ []) :
    (goProductsResponse (.ok rows)).code = 200 ∧
    (goProductsResponse (.ok rows)).body = .jsonLn (Json.arr ((goScanRows rows).map Json.str)) ∧
    Json.isStrArray (Json.arr ((goScanRows rows).map Json.str)) = true ∧
    (nodeProductsResponse (.ok names)).code = 200 ∧
    (nodeProductsResponse (.ok names)).body = .json (Json.arr (names.map Json.str)) ∧
    Json.isStrArray (Json.arr (names.map Json.str)) = true := by
  refine ⟨rfl, ?_, isStrArray_map_str _, rfl, rfl, isStrArray_map_str _⟩
  rcases hg : goScanRows rows with _ | ⟨a, t⟩
  · exact absurd hg h
  · simp [goProductsResponse, goEncodeStringSlice, hg]

/-- Witness for the C8 amended theorem at a concrete input: one row
scanning to the name "apple", and the Node service with zero rows. -/
theorem products_success_body_array_witness :
    goScanRows [Except.ok "apple"] ≠ [] ∧
    ((goProductsResponse (.ok [Except.ok "apple"])).code = 200 ∧
     (goProductsResponse (.ok [Except.ok "apple"])).body =
       .jsonLn (Json.arr ((goScanRows [Except.ok "apple"]).map Json.str)) ∧
     Json.isStrArray (Json.arr ((goScanRows [Except.ok "apple"]).map Json.str)) = true ∧
     (nodeProductsResponse (.ok ([] : List String))).code = 200 ∧
     (nodeProductsResponse (.ok ([] : List String))).body =
       .json (Json.arr (([] : List String).map Json.str)) ∧
     Json.isStrArray (Json.arr (([] : List String).map Json.str)) = true) :=
  ⟨by decide, products_success_body_array [Except.ok "apple"] [] (by decide)⟩

/-- C10: In the Go service's product-listing handler a row whose scan
fails is silently skipped: for any surrounding rows, the response is still
a success (status 200, not an error status), scanning rows with a failing
row inserted yields exactly the names of the remaining rows, and the body
is the encoding of those remaining names. -/
theorem go_scan_failure_row_skipped (pre post : List (Except String String)) (e : String) :
    (goProductsResponse (.ok (pre ++ Except.error e :: post))).code = 200 ∧
    goScanRows (pre ++ Except.error e :: post) = goScanRows (pre ++ post) ∧
    (goProductsResponse (.ok (pre ++ Except.error e :: post))).body =
      .jsonLn (goEncodeStringSlice (goScanRows (pre ++ post))) := by
  have hs : goScanRows (pre ++ Except.error e :: post) = goScanRows (pre ++ post) := by
    simp [goScanRows]
  exact ⟨rfl, hs, by simp [goProductsResponse, hs]⟩

/-! ## Claim C3: probe timeouts -/

/-- C3 counterexample: the database probe invoked by the Go health
aggregator runs under the background context, which carries no configured
timeout at all — the aggregator's probe invocations are not bounded by a
configured ~2-second timeout. -/
theorem health_probe_no_configured_timeout :
    ("database", contextBackground) ∈ healthHandlerProbeContexts ∧
    contextBackground.timeoutMs = none :=
  ⟨by decide, rfl⟩

/-- C3 amended: only the startup Redis connection check is bounded by a
configured timeout (2 seconds, via context.WithTimeout in initRedis); the
probe invocations made by the health aggregator itself run under the
background context with no configured timeout, in the Go service, and the
Node service's health probes likewise configure no timeout — they rely
only on the client libraries' transport defaults. -/
theorem probe_timeout_configured_at_startup_only (p : String × GoContext)
    (hp : p ∈ healthHandlerProbeContexts) :
    initRedisProbeContext.timeoutMs = some 2000 ∧
    p.2.timeoutMs = none ∧
    (∀ q ∈ nodeHealthProbeTimeouts, q.2 = none) := by
  refine ⟨rfl, ?_, by decide⟩
  simp only [healthHandlerProbeContexts, List.mem_cons, List.mem_singleton,
    List.not_mem_nil, or_false] at hp
  rcases hp with rfl | rfl <;> rfl

/-- Witness for the C3 amended theorem at the database probe. -/
theorem probe_timeout_configured_at_startup_only_witness :
    (("database", contextBackground) ∈ healthHandlerProbeContexts) ∧
    (initRedisProbeContext.timeoutMs = some 2000 ∧
     (("database", contextBackground) : String × GoContext).2.timeoutMs = none ∧
     (∀ q ∈ nodeHealthProbeTimeouts, q.2 = none)) :=
  ⟨by decide, probe_timeout_configured_at_startup_only ("database", contextBackground) (by decide)⟩

/-! ## Claim C7: startup failures -/

/-- C7 counterexample: in the Node service a failed initial Redis
connection at boot is not fatal — the connect error is caught and only
logged, and the process goes on serving traffic. -/
theorem node_startup_redis_failure_still_serves :
    (nodeStartup (some "connect ECONNREFUSED 127.0.0.1:6379")).2 = StartupOutcome.serving ∧
    StartupOutcome.serving ≠ StartupOutcome.fatalExit :=
  ⟨rfl, by decide⟩

/-- C7 amended: in the Go service any failure while establishing the
initial database or Redis handles at boot is fatal — the process exits
before serving any traffic; in the Node service, however, the initial
Redis connection failure is caught and only logged, the process still
serves traffic, and no initial database connection is attempted at boot. -/
theorem startup_failure_fatal_go_only (dbOpenErr dbPingErr redisPingErr : Option String)
    (h : dbOpenErr.isSome ∨ dbPingErr.isSome ∨ redisPingErr.isSome) :
    goStartup dbOpenErr dbPingErr redisPingErr = StartupOutcome.fatalExit ∧
    (∀ e : String, (nodeStartup (some e)).2 = StartupOutcome.serving) := by
  refine ⟨?_, fun e => rfl⟩
  cases dbOpenErr <;> cases dbPingErr <;> cases redisPingErr <;> simp_all [goStartup]

/-- Witness for the C7 amended theorem at a concrete input: a failed db
ping at boot. -/
theorem startup_failure_fatal_go_only_witness :
    ((none : Option String).isSome ∨ (some "no route to host" : Option String).isSome ∨
      (none : Option String).isSome) ∧
    (goStartup none (some "no route to host") none = StartupOutcome.fatalExit ∧
     (∀ e : String, (nodeStartup (some e)).2 = StartupOutcome.serving)) :=
  ⟨by decide, startup_failure_fatal_go_only none (some "no route to host") none (by decide)⟩

end Monorepo
